import Mathlib

/-!
Verification of the rtbox runtime resolution & controlled execution subsystem.

This file shallowly embeds the Python modules `rtbox/runtime.py`,
`rtbox/rootfs.py`, `rtbox/config.py` and `rtbox/distros.py`.  Filesystem
probes (`Path.exists`, `Path.is_symlink`, `os.readlink`, `Path.is_dir`,
`Path.glob`) are modelled as an oracle structure `FS`; the host environment
(`os.environ`) and `Path.home()` as `HostConfig`; process creation
(`subprocess.run`, `os.execve`) as an oracle returning the child's outcome,
with every issued call recorded so that "no subprocess was created" is a
provable statement.  Paths are strings; `pathlib`'s `/` join with a relative
right operand is string concatenation with a `/` separator.
-/

namespace Rtbox

/-- Filesystem entry kinds probed by the code: existence (following symlinks,
as `Path.exists` does), symlink-ness, the raw stored symlink target
(`os.readlink`), directory-ness, and glob results (full paths of matches of a
pattern evaluated relative to a base directory). -/
structure FS where
  pathExists : String → Bool
  isSymlink : String → Bool
  readlink : String → String
  isDir : String → Bool
  glob : String → String → List String

/-- Join of a base path with a relative component, as `pathlib`'s `/`. -/
def pjoin (a b : String) : String := a ++ "/" ++ b

/-- Boolean test that `pre` is a prefix of `s`, as Python's `str.startswith`. -/
def strStartsWith (s pre : String) : Bool := pre.toList.isPrefixOf s.toList

/-- Occurrence of a character sequence inside another, by scanning every tail. -/
def subOccurs (needle : List Char) : List Char → Bool
  | [] => needle.isEmpty
  | c :: t => needle.isPrefixOf (c :: t) || subOccurs needle t

/-- Boolean substring test, as Python's `in` operator on strings. -/
def strContainsSub (s sub : String) : Bool := subOccurs sub.toList s.toList

/-- Final path component, as `pathlib.Path.name`. -/
def basename (p : String) : String :=
  String.mk ((p.toList.reverse.takeWhile (fun c => c ≠ '/')).reverse)

/-- Python's `str.lstrip("/")`: drop every leading `/`. -/
def lstripSlash (s : String) : String :=
  String.mk (s.toList.dropWhile (fun c => c = '/'))

/-- Test from `runtime.find_ld_linux`: an existing entry that is a symlink
whose stored target is an absolute path (starts with `/`). -/
def isAbsSymlink (fs : FS) (p : String) : Bool :=
  fs.isSymlink p && strStartsWith (fs.readlink p) "/"

/-- Ordered canonical loader candidates from `runtime.find_ld_linux`,
transcribed in source order: the x86-64 architecture-triplet path first, the
generic `lib64` path second, then the aarch64 and generic fallbacks. -/
def ldCandidates (rootfs_path : String) : List String :=
  [ rootfs_path ++ "/lib/x86_64-linux-gnu/ld-linux-x86-64.so.2"
  , rootfs_path ++ "/lib64/ld-linux-x86-64.so.2"
  , rootfs_path ++ "/lib/aarch64-linux-gnu/ld-linux-aarch64.so.1"
  , rootfs_path ++ "/lib/ld-linux-aarch64.so.1"
  , rootfs_path ++ "/lib/ld-linux.so.2" ]

/-- First probe loop of `find_ld_linux`: the first candidate that exists and
is not a symlink with an absolute target. -/
def findCanonical (fs : FS) : List String → Option String
  | [] => none
  | c :: rest =>
    if fs.pathExists c then
      if isAbsSymlink fs c then findCanonical fs rest else some c
    else findCanonical fs rest

/-- First glob-fallback pass of `find_ld_linux`: matches that are not
absolute-target symlinks and whose filename contains `.so.2` or `.so.1`,
in match order. -/
def globValid (fs : FS) : List String → List String
  | [] => []
  | m :: rest =>
    if isAbsSymlink fs m then globValid fs rest
    else if strContainsSub (basename m) ".so.2" || strContainsSub (basename m) ".so.1" then
      m :: globValid fs rest
    else globValid fs rest

/-- Second glob-fallback pass of `find_ld_linux`: the first match that is not
an absolute-target symlink. -/
def globFirstOk (fs : FS) : List String → Option String
  | [] => none
  | m :: rest => if isAbsSymlink fs m then globFirstOk fs rest else some m

/-- Selection among the matches of one glob pattern in `find_ld_linux`:
prefer the first valid (`.so.2`/`.so.1`) match, else the first match that is
not an absolute-target symlink. -/
def globSelect (fs : FS) (ms : List String) : Option String :=
  match globValid fs ms with
  | v :: _ => some v
  | [] => globFirstOk fs ms

/-- Embedding of `runtime.find_ld_linux`: probe the canonical candidates in
order, then fall back to the glob patterns `lib/*/ld-linux*.so*` and
`lib*/ld-linux*.so*` in that (source) order. -/
def find_ld_linux (fs : FS) (rootfs_path : String) : Option String :=
  match findCanonical fs (ldCandidates rootfs_path) with
  | some c => some c
  | none =>
    match globSelect fs (fs.glob rootfs_path "lib/*/ld-linux*.so*") with
    | some m => some m
    | none => globSelect fs (fs.glob rootfs_path "lib*/ld-linux*.so*")

/-- Host-side ambient state read by `rtbox/config.py`: the process environment
(`os.environ`) and the user's home directory (`Path.home()`). -/
structure HostConfig where
  env : String → Option String
  home : String

/-- Embedding of `config.get_rtbox_home`: the `RTBOX_HOME` environment
variable when set and non-empty (Python truthiness of the string), else
`~/.rtbox`. -/
def get_rtbox_home (cfg : HostConfig) : String :=
  match cfg.env "RTBOX_HOME" with
  | some home => if home = "" then pjoin cfg.home ".rtbox" else home
  | none => pjoin cfg.home ".rtbox"

/-- Embedding of `config.get_rootfs_dir`. -/
def get_rootfs_dir (cfg : HostConfig) : String :=
  pjoin (get_rtbox_home cfg) "rootfs"

/-- Embedding of `config.get_distro_rootfs`. -/
def get_distro_rootfs (cfg : HostConfig) (distro_name : String) : String :=
  pjoin (get_rootfs_dir cfg) distro_name

/-- Record from `rtbox/distros.py`. -/
structure Distro where
  name : String
  version : String
  glibc_version : String
  codename : String
deriving DecidableEq, Repr

/-- Static catalog `distros.DISTROS`, transcribed in declaration order. -/
def DISTROS : List Distro :=
  [ { name := "bullseye", version := "11", glibc_version := "2.30", codename := "bullseye" }
  , { name := "bookworm", version := "12", glibc_version := "2.36", codename := "bookworm" }
  , { name := "trixie", version := "13", glibc_version := "2.41", codename := "trixie" }
  , { name := "forky", version := "14", glibc_version := "2.41", codename := "forky" } ]

/-- Embedding of `distros.get_distro`: direct lookup by name (the dict is
keyed by each record's `name`), then a scan by version number. -/
def get_distro (name : String) : Option Distro :=
  match DISTROS.find? (fun d => d.name = name) with
  | some d => some d
  | none => DISTROS.find? (fun d => d.version = name)

/-- Embedding of `rootfs.is_rootfs_installed`: the rootfs path contains a
`lib` or `lib64` entry (`Path.exists`, with no directory-kind check). -/
def is_rootfs_installed (cfg : HostConfig) (fs : FS) (distro_name : String) : Bool :=
  let rootfs_path := get_distro_rootfs cfg distro_name
  fs.pathExists (pjoin rootfs_path "lib") || fs.pathExists (pjoin rootfs_path "lib64")

/-- Fixed candidate list of `runtime.get_lib_paths`, in source order. -/
def libCandidates (rootfs_path : String) : List String :=
  [ rootfs_path ++ "/lib"
  , rootfs_path ++ "/lib64"
  , rootfs_path ++ "/lib/x86_64-linux-gnu"
  , rootfs_path ++ "/lib/aarch64-linux-gnu"
  , rootfs_path ++ "/usr/lib"
  , rootfs_path ++ "/usr/lib64"
  , rootfs_path ++ "/usr/lib/x86_64-linux-gnu"
  , rootfs_path ++ "/usr/lib/aarch64-linux-gnu" ]

/-- Embedding of `runtime.get_lib_paths`: the candidates that exist and are
directories, kept in candidate order. -/
def get_lib_paths (fs : FS) (rootfs_path : String) : List String :=
  (libCandidates rootfs_path).filter (fun p => fs.pathExists p && fs.isDir p)

/-- Python `dict` as an association list with unique keys in insertion
order; `dictInsert` replaces the value of an existing key in place and
appends a fresh key at the end, as `d[k] = v` does. -/
def dictInsert : List (String × String) → String → String → List (String × String)
  | [], k, v => [(k, v)]
  | kv :: rest, k, v => if kv.1 = k then (k, v) :: rest else kv :: dictInsert rest k v

/-- Lookup in the association-list model of a Python `dict`. -/
def dictGet? (d : List (String × String)) (k : String) : Option String :=
  (d.find? (fun kv => kv.1 = k)).map (fun kv => kv.2)

/-- Allow-list `safe_vars` of `runtime.build_runtime_env`, in source order. -/
def safe_vars : List String :=
  [ "PATH", "HOME", "USER", "LOGNAME", "SHELL", "TERM", "COLORTERM"
  , "LANG", "LC_ALL", "LC_CTYPE", "TZ", "DISPLAY", "WAYLAND_DISPLAY"
  , "XDG_RUNTIME_DIR", "XDG_SESSION_TYPE", "DBUS_SESSION_BUS_ADDRESS"
  , "SSH_AUTH_SOCK", "SSH_TTY", "TMPDIR", "TEMP", "TMP"
  , "CI", "GITHUB_ACTIONS", "RUNNER_OS" ]

/-- One step of the allow-list copy loop of `build_runtime_env`: copy the
variable from the host environment when it is set there. -/
def copySafeVar (hostEnv : String → Option String)
    (env : List (String × String)) (v : String) : List (String × String) :=
  match hostEnv v with
  | some val => dictInsert env v val
  | none => env

/-- Embedding of `runtime.build_runtime_env`: start from an empty dict, copy
the allow-listed variables present in the host environment, then set
`LD_LIBRARY_PATH` to the colon join of the collected rootfs library paths
followed by the extra paths, then set the `RTBOX_ROOTFS` marker.  The
optional `extra_lib_paths=None` argument is the empty list here. -/
def build_runtime_env (fs : FS) (hostEnv : String → Option String)
    (rootfs_path : String) (extra_lib_paths : List String) : List (String × String) :=
  let env := safe_vars.foldl (copySafeVar hostEnv) []
  let lib_path_strs := get_lib_paths fs rootfs_path ++ extra_lib_paths
  let env := dictInsert env "LD_LIBRARY_PATH" (String.intercalate ":" lib_path_strs)
  dictInsert env "RTBOX_ROOTFS" rootfs_path

/-- Embedding of `runtime.resolve_command`: when the program word is an
absolute path and the rootfs-relative file exists, substitute it; otherwise
return the argv unchanged. -/
def resolve_command (fs : FS) (rootfs_path : String) (command : List String) : List String :=
  match command with
  | [] => []
  | executable :: args =>
    if strStartsWith executable "/" then
      let rootfs_executable := pjoin rootfs_path (lstripSlash executable)
      if fs.pathExists rootfs_executable then rootfs_executable :: args
      else executable :: args
    else executable :: args

/-- Error value of `runtime.RuntimeError`; the Python class is a single
exception type carrying a message, and each constructor here tags one of the
distinct raise sites with the exact message the code formats. -/
inductive RtError where
  | unknownDistro (msg : String)
  | rootfsNotInstalled (msg : String)
  | loaderNotFound (msg : String)
  | commandNotFound (msg : String)
  | permissionDenied (msg : String)
deriving DecidableEq, Repr

/-- Outcome of one `subprocess.run` invocation, supplied by the world:
normal termination with an exit code, or the two caught OSError kinds. -/
inductive SpawnResult where
  | exited (code : Int)
  | fileNotFound (msg : String)
  | permissionError (msg : String)
deriving DecidableEq, Repr

/-- Record of one `subprocess.run` call: argument vector, environment and
working directory handed to the spawn primitive. -/
structure SpawnCall where
  argv : List String
  env : List (String × String)
  cwd : Option String
deriving DecidableEq, Repr

/-- Record of one `os.execve` call: file, argument vector and environment. -/
structure ExecCall where
  file : String
  argv : List String
  env : List (String × String)
deriving DecidableEq, Repr

/-- Ambient world of one runtime invocation: host configuration, filesystem
and the behaviour of spawned children. -/
structure World where
  cfg : HostConfig
  fs : FS
  spawn : List String → List (String × String) → Option String → SpawnResult

/-- Application of caller-supplied overrides, as `env.update(env_vars)`
applied in the dict's iteration (insertion) order. -/
def applyOverrides (env : List (String × String))
    (env_vars : List (String × String)) : List (String × String) :=
  env_vars.foldl (fun e kv => dictInsert e kv.1 kv.2) env

/-- Embedding of `runtime.run_with_glibc`.  The returned list records every
`subprocess.run` call issued, so resolution failures provably spawn nothing.
The optional arguments default to empty here as they do in Python
(`None` → no extra paths / no overrides / inherited working directory). -/
def run_with_glibc (w : World) (distro_name : String) (command : List String)
    (extra_lib_paths : List String) (working_dir : Option String)
    (env_vars : List (String × String)) : Except RtError Int × List SpawnCall :=
  match get_distro distro_name with
  | none => (Except.error (RtError.unknownDistro ("Unknown distro: " ++ distro_name)), [])
  | some _ =>
    if is_rootfs_installed w.cfg w.fs distro_name then
      let rootfs_path := get_distro_rootfs w.cfg distro_name
      match find_ld_linux w.fs rootfs_path with
      | none =>
        (Except.error (RtError.loaderNotFound
          ("Could not find ld-linux in rootfs at " ++ rootfs_path ++
           ". The rootfs may be incomplete or corrupted.")), [])
      | some ld_linux =>
        let resolved_command := resolve_command w.fs rootfs_path command
        let env := build_runtime_env w.fs w.cfg.env rootfs_path extra_lib_paths
        let env := applyOverrides env env_vars
        let lib_path := (dictGet? env "LD_LIBRARY_PATH").getD ""
        let full_command := ld_linux :: "--library-path" :: lib_path :: resolved_command
        match w.spawn full_command env working_dir with
        | SpawnResult.exited code => (Except.ok code, [⟨full_command, env, working_dir⟩])
        | SpawnResult.fileNotFound m =>
          (Except.error (RtError.commandNotFound ("Command not found: " ++ m)),
           [⟨full_command, env, working_dir⟩])
        | SpawnResult.permissionError m =>
          (Except.error (RtError.permissionDenied ("Permission denied: " ++ m)),
           [⟨full_command, env, working_dir⟩])
    else
      (Except.error (RtError.rootfsNotInstalled
        ("Rootfs for " ++ distro_name ++ " is not installed. Run: rtbox pull " ++ distro_name)), [])

/-- Embedding of `runtime.exec_with_glibc`: identical resolution pipeline,
ending in `os.execve`; a successful replacement is modelled by returning the
exec call that substitutes the process image. -/
def exec_with_glibc (w : World) (distro_name : String) (command : List String)
    (extra_lib_paths : List String)
    (env_vars : List (String × String)) : Except RtError ExecCall :=
  match get_distro distro_name with
  | none => Except.error (RtError.unknownDistro ("Unknown distro: " ++ distro_name))
  | some _ =>
    if is_rootfs_installed w.cfg w.fs distro_name then
      let rootfs_path := get_distro_rootfs w.cfg distro_name
      match find_ld_linux w.fs rootfs_path with
      | none =>
        Except.error (RtError.loaderNotFound
          ("Could not find ld-linux in rootfs at " ++ rootfs_path))
      | some ld_linux =>
        let resolved_command := resolve_command w.fs rootfs_path command
        let env := build_runtime_env w.fs w.cfg.env rootfs_path extra_lib_paths
        let env := applyOverrides env env_vars
        let lib_path := (dictGet? env "LD_LIBRARY_PATH").getD ""
        let full_command := ld_linux :: "--library-path" :: lib_path :: resolved_command
        Except.ok ⟨ld_linux, full_command, env⟩
    else
      Except.error (RtError.rootfsNotInstalled
        ("Rootfs for " ++ distro_name ++ " is not installed. Run: rtbox pull " ++ distro_name))

/-- Python f-string rendering of the `Path | None` loader value interpolated
into the wrapper script: `f"{None}"` is the literal text `None`. -/
def optionPathStr : Option String → String
  | some p => p
  | none => "None"

/-- Literal text of the wrapper script produced by
`runtime.get_shell_wrapper_script`, with the five interpolated values. -/
def renderScript (distro_name glibc_version rootfs_path lib_path_str ld_str : String) : String :=
  "#!/bin/bash\n# rtbox wrapper script for " ++ distro_name ++ " (glibc " ++
  glibc_version ++ ")\n# Source this script or use it as a prefix for commands\n\nexport RTBOX_ROOTFS=\"" ++
  rootfs_path ++ "\"\nexport RTBOX_DISTRO=\"" ++ distro_name ++
  "\"\nexport LD_LIBRARY_PATH=\"" ++ lib_path_str ++
  "\"\n\n# Function to run commands with the rtbox glibc\nrtbox_run() \x7b\n    \"" ++
  ld_str ++ "\" --library-path \"$LD_LIBRARY_PATH\" \"$@\"\n\x7d\n\n# If arguments were passed, run them\nif [ $# -gt 0 ]; then\n    rtbox_run \"$@\"\nfi\n"

/-- Embedding of `runtime.get_shell_wrapper_script`: after the distro and
installation checks it renders the script unconditionally — in particular a
`None` loader result is interpolated as the text `None`. -/
def get_shell_wrapper_script (cfg : HostConfig) (fs : FS)
    (distro_name : String) : Except RtError String :=
  match get_distro distro_name with
  | none => Except.error (RtError.unknownDistro ("Unknown distro: " ++ distro_name))
  | some distro =>
    if is_rootfs_installed cfg fs distro_name then
      let rootfs_path := get_distro_rootfs cfg distro_name
      let ld_linux := find_ld_linux fs rootfs_path
      let lib_paths := get_lib_paths fs rootfs_path
      let lib_path_str := String.intercalate ":" lib_paths
      Except.ok (renderScript distro_name distro.glibc_version rootfs_path
        lib_path_str (optionPathStr ld_linux))
    else
      Except.error (RtError.rootfsNotInstalled
        ("Rootfs for " ++ distro_name ++ " is not installed"))

/-- Modelled from the spec: the command line executed by the generated
script's `rtbox_run` shell function (the bash word-expansion semantics of the
rendered script are outside the repository's own code).  Per the spec the
function "re-invokes the loader with the same `--library-path` construction":
it runs the interpolated loader text with `--library-path` set to the
exported `LD_LIBRARY_PATH` value, followed by its arguments verbatim. -/
def wrapper_run_command (cfg : HostConfig) (fs : FS) (distro_name : String)
    (args : List String) : Except RtError (List String) :=
  match get_distro distro_name with
  | none => Except.error (RtError.unknownDistro ("Unknown distro: " ++ distro_name))
  | some _ =>
    if is_rootfs_installed cfg fs distro_name then
      let rootfs_path := get_distro_rootfs cfg distro_name
      let ld_str := optionPathStr (find_ld_linux fs rootfs_path)
      let lib_path_str := String.intercalate ":" (get_lib_paths fs rootfs_path)
      Except.ok (ld_str :: "--library-path" :: lib_path_str :: args)
    else
      Except.error (RtError.rootfsNotInstalled
        ("Rootfs for " ++ distro_name ++ " is not installed"))

/-- Acceptance test of the spec's loader algorithm: the candidate exists and
is not rejected as an absolute-target symlink. -/
def acceptableCandidate (fs : FS) (c : String) : Bool :=
  fs.pathExists c && !(isAbsSymlink fs c)

/-- Loader version suffix test of the spec's fallback: the filename contains
`.so.1` or `.so.2`. -/
def hasLoaderSuffix (m : String) : Bool :=
  strContainsSub (basename m) ".so.1" || strContainsSub (basename m) ".so.2"

/-- Selection of the spec's glob fallback, stated with the claim's words:
among non-rejected matches prefer those with a loader version suffix,
otherwise accept the first remaining non-rejected match. -/
def specGlobPick (fs : FS) (ms : List String) : Option String :=
  let ok := ms.filter (fun m => !(isAbsSymlink fs m))
  match ok.filter hasLoaderSuffix with
  | p :: _ => some p
  | [] => ok.head?

/-- Loader resolution algorithm as the spec states it: first existing
non-rejected canonical candidate, else the glob fallback over the two
pattern families (probed in the source's order). -/
def find_ld_linux_spec (fs : FS) (rootfs_path : String) : Option String :=
  match (ldCandidates rootfs_path).find? (acceptableCandidate fs) with
  | some c => some c
  | none =>
    match specGlobPick fs (fs.glob rootfs_path "lib/*/ld-linux*.so*") with
    | some m => some m
    | none => specGlobPick fs (fs.glob rootfs_path "lib*/ld-linux*.so*")

/-- Empty filesystem fixture. -/
def fsEmpty : FS :=
  { pathExists := fun _ => false
  , isSymlink := fun _ => false
  , readlink := fun _ => ""
  , isDir := fun _ => false
  , glob := fun _ _ => [] }

/-- Fixture for the canonical probe: the triplet candidate under `/r` is an
existing symlink with an absolute target, the `lib64` candidate a regular
file. -/
def fsA : FS :=
  { pathExists := fun p =>
      p = "/r/lib/x86_64-linux-gnu/ld-linux-x86-64.so.2" || p = "/r/lib64/ld-linux-x86-64.so.2"
  , isSymlink := fun p => p = "/r/lib/x86_64-linux-gnu/ld-linux-x86-64.so.2"
  , readlink := fun _ => "/lib/x86_64-linux-gnu/ld-linux-x86-64.so.2"
  , isDir := fun _ => false
  , glob := fun _ _ => [] }

/-- Fixture where the loader is reachable only through the `lib*/` glob
pattern, as a regular file with a `.so.2` suffix. -/
def fsB : FS :=
  { pathExists := fun _ => false
  , isSymlink := fun _ => false
  , readlink := fun _ => ""
  , isDir := fun _ => false
  , glob := fun _ pat => if pat = "lib*/ld-linux*.so*" then ["/r/lib64/ld-linux-x86-64.so.2"] else [] }

/-- Host configuration fixture with `RTBOX_HOME=/rt`, so the bookworm rootfs
resolves to `/rt/rootfs/bookworm`. -/
def cfgR : HostConfig :=
  { env := fun v => if v = "RTBOX_HOME" then some "/rt" else none, home := "/h" }

/-- Installed bookworm rootfs fixture: `lib` is a directory, the x86-64
triplet loader is a regular file, and `bin/ls` exists. -/
def fsR : FS :=
  { pathExists := fun p =>
      p = "/rt/rootfs/bookworm/lib"
      || p = "/rt/rootfs/bookworm/lib/x86_64-linux-gnu/ld-linux-x86-64.so.2"
      || p = "/rt/rootfs/bookworm/bin/ls"
  , isSymlink := fun _ => false
  , readlink := fun _ => ""
  , isDir := fun p => p = "/rt/rootfs/bookworm/lib"
  , glob := fun _ _ => [] }

/-- World fixture over `cfgR`/`fsR` whose children always exit 0. -/
def wR : World :=
  { cfg := cfgR, fs := fsR, spawn := fun _ _ _ => SpawnResult.exited 0 }

/-- World fixture with nothing installed. -/
def wU : World :=
  { cfg := { env := fun _ => none, home := "/h" }, fs := fsEmpty
  , spawn := fun _ _ _ => SpawnResult.exited 0 }

/-- Host environment fixture holding a loader-tuning variable and an
allow-listed variable. -/
def hostX : String → Option String :=
  fun v => if v = "LD_PRELOAD" then some "/evil.so" else if v = "PATH" then some "/usr/bin" else none

/-- Rootfs fixture for command resolution: only `bin/ls` exists under `/r`. -/
def fsBin : FS :=
  { pathExists := fun p => p = "/r/bin/ls"
  , isSymlink := fun _ => false
  , readlink := fun _ => ""
  , isDir := fun _ => false
  , glob := fun _ _ => [] }

/-- Fixture where the bookworm rootfs entry `lib` exists but is not a
directory (e.g. a regular file), and no `lib64` entry exists. -/
def fsLibFile : FS :=
  { pathExists := fun p => p = "/rt/rootfs/bookworm/lib"
  , isSymlink := fun _ => false
  , readlink := fun _ => ""
  , isDir := fun _ => false
  , glob := fun _ _ => [] }

/-- Fixture of an installed bookworm rootfs (`lib` is a directory) that
contains no resolvable loader anywhere. -/
def fsNoLd : FS :=
  { pathExists := fun p => p = "/rt/rootfs/bookworm/lib"
  , isSymlink := fun _ => false
  , readlink := fun _ => ""
  , isDir := fun p => p = "/rt/rootfs/bookworm/lib"
  , glob := fun _ _ => [] }

/-- World fixture over `cfgR`/`fsNoLd`. -/
def wNoLd : World :=
  { cfg := cfgR, fs := fsNoLd, spawn := fun _ _ _ => SpawnResult.exited 0 }

/-! Helper lemmas about the dict model. -/

theorem dictGet?_nil (k : String) : dictGet? [] k = none := rfl

theorem dictGet?_cons (kv : String × String) (rest : List (String × String)) (k : String) :
    dictGet? (kv :: rest) k = if kv.1 = k then some kv.2 else dictGet? rest k := by
  by_cases h : kv.1 = k
  · simp [dictGet?, List.find?_cons_of_pos, h]
  · simp [dictGet?, List.find?_cons_of_neg, h]

theorem dictGet?_insert_self (d : List (String × String)) (k v : String) :
    dictGet? (dictInsert d k v) k = some v := by
  induction d with
  | nil => simp [dictInsert, dictGet?_cons]
  | cons kv rest ih =>
    by_cases h : kv.1 = k
    · simp [dictInsert, h, dictGet?_cons]
    · simp [dictInsert, h, dictGet?_cons, ih]

theorem dictGet?_insert_ne (d : List (String × String)) (k' v k : String) (h : k ≠ k') :
    dictGet? (dictInsert d k' v) k = dictGet? d k := by
  have hne : ¬ k' = k := fun hh => h hh.symm
  induction d with
  | nil => simp [dictInsert, dictGet?_cons, dictGet?_nil, hne]
  | cons kv rest ih =>
    by_cases hk : kv.1 = k'
    · have hkk : ¬ kv.1 = k := by rw [hk]; exact hne
      simp [dictInsert, hk, dictGet?_cons, hkk, hne]
    · simp only [dictInsert, if_neg hk, dictGet?_cons, ih]

theorem copy_fold_congr (h1 h2 : String → Option String) (l : List String)
    (d : List (String × String)) (hagree : ∀ v ∈ l, h1 v = h2 v) :
    l.foldl (copySafeVar h1) d = l.foldl (copySafeVar h2) d := by
  induction l generalizing d with
  | nil => rfl
  | cons v rest ih =>
    rw [List.foldl_cons, List.foldl_cons]
    have hv : copySafeVar h1 d v = copySafeVar h2 d v := by
      unfold copySafeVar
      rw [hagree v (List.mem_cons_self v rest)]
    rw [hv]
    exact ih _ (fun x hx => hagree x (List.mem_cons_of_mem _ hx))

theorem copy_fold_get (h : String → Option String) (l : List String)
    (d0 : List (String × String)) (k : String) :
    dictGet? (l.foldl (copySafeVar h) d0) k
      = if k ∈ l ∧ (h k).isSome then h k else dictGet? d0 k := by
  induction l generalizing d0 with
  | nil => simp
  | cons v rest ih =>
    rw [List.foldl_cons, ih]
    by_cases hkv : k = v
    · subst hkv
      cases hh : h k with
      | some val => simp [copySafeVar, hh, dictGet?_insert_self]
      | none => simp [copySafeVar, hh]
    · have hdrop : dictGet? (copySafeVar h d0 v) k = dictGet? d0 k := by
        cases hh : h v with
        | some val => simp [copySafeVar, hh, dictGet?_insert_ne _ _ _ _ hkv]
        | none => simp [copySafeVar, hh]
      rw [hdrop]
      simp [List.mem_cons, hkv]

theorem applyOverrides_get_notkey (envv : List (String × String))
    (d : List (String × String)) (k : String) (h : ∀ kv ∈ envv, kv.1 ≠ k) :
    dictGet? (applyOverrides d envv) k = dictGet? d k := by
  induction envv generalizing d with
  | nil => rfl
  | cons kv rest ih =>
    show dictGet? (applyOverrides (dictInsert d kv.1 kv.2) rest) k = dictGet? d k
    rw [ih _ (fun x hx => h x (List.mem_cons_of_mem _ hx))]
    exact dictGet?_insert_ne _ _ _ _ (Ne.symm (h kv (List.mem_cons_self kv rest)))

theorem build_env_get_ld (fs : FS) (h : String → Option String) (root : String)
    (extra : List String) :
    dictGet? (build_runtime_env fs h root extra) "LD_LIBRARY_PATH"
      = some (String.intercalate ":" (get_lib_paths fs root ++ extra)) := by
  unfold build_runtime_env
  rw [dictGet?_insert_ne _ _ _ _ (by decide), dictGet?_insert_self]

theorem build_env_get_rtbox (fs : FS) (h : String → Option String) (root : String)
    (extra : List String) :
    dictGet? (build_runtime_env fs h root extra) "RTBOX_ROOTFS" = some root := by
  unfold build_runtime_env
  rw [dictGet?_insert_self]

theorem build_env_get_safe (fs : FS) (h : String → Option String) (root : String)
    (extra : List String) (v x : String) (hv : v ∈ safe_vars) (hx : h v = some x) :
    dictGet? (build_runtime_env fs h root extra) v = some x := by
  have hne : ∀ u ∈ safe_vars, u ≠ "LD_LIBRARY_PATH" ∧ u ≠ "RTBOX_ROOTFS" := by decide
  unfold build_runtime_env
  rw [dictGet?_insert_ne _ _ _ _ (hne v hv).2, dictGet?_insert_ne _ _ _ _ (hne v hv).1,
    copy_fold_get]
  simp [hv, hx]

theorem build_env_get_none (fs : FS) (h : String → Option String) (root : String)
    (extra : List String) (n : String) (h1 : n ∉ safe_vars)
    (h2 : n ≠ "LD_LIBRARY_PATH") (h3 : n ≠ "RTBOX_ROOTFS") :
    dictGet? (build_runtime_env fs h root extra) n = none := by
  unfold build_runtime_env
  rw [dictGet?_insert_ne _ _ _ _ h3, dictGet?_insert_ne _ _ _ _ h2, copy_fold_get]
  simp [h1, dictGet?_nil]

/-! Helper lemmas about the loader resolver. -/

theorem findCanonical_eq_find? (fs : FS) (l : List String) :
    findCanonical fs l = l.find? (acceptableCandidate fs) := by
  induction l with
  | nil => rfl
  | cons c rest ih =>
    cases he : fs.pathExists c with
    | false => simp [findCanonical, he, acceptableCandidate, List.find?_cons, ih]
    | true =>
      cases ha : isAbsSymlink fs c with
      | false => simp [findCanonical, he, ha, acceptableCandidate, List.find?_cons]
      | true => simp [findCanonical, he, ha, acceptableCandidate, List.find?_cons, ih]

theorem findCanonical_some (fs : FS) (l : List String) (c : String)
    (h : findCanonical fs l = some c) :
    fs.pathExists c = true ∧ isAbsSymlink fs c = false := by
  induction l with
  | nil => simp [findCanonical] at h
  | cons a rest ih =>
    by_cases he : fs.pathExists a
    · by_cases ha : isAbsSymlink fs a = true
      · exact ih (by simpa [findCanonical, he, ha] using h)
      · have : a = c := by simpa [findCanonical, he, ha] using h
        subst this
        exact ⟨by simpa using he, by simpa using ha⟩
    · exact ih (by simpa [findCanonical, he] using h)

theorem find?_first_getD (l : List String) (p : String → Bool) (j : Nat) (hj : j < l.length)
    (hbefore : ∀ k, k < j → p (l.getD k "") = false) (hp : p (l.getD j "") = true) :
    l.find? p = some (l.getD j "") := by
  induction l generalizing j with
  | nil => simp at hj
  | cons a t ih =>
    cases j with
    | zero =>
      simp only [List.getD_cons_zero] at hp ⊢
      simp [List.find?_cons, hp]
    | succ n =>
      have h0 : p a = false := by simpa using hbefore 0 (Nat.succ_pos n)
      simp only [List.getD_cons_succ] at hp ⊢
      rw [List.find?_cons_of_neg _ (by simp [h0])]
      exact ih n (by simpa using hj) (fun k hk => by simpa using hbefore (k + 1) (by omega)) hp

theorem globValid_eq (fs : FS) (ms : List String) :
    globValid fs ms = (ms.filter (fun m => !(isAbsSymlink fs m))).filter hasLoaderSuffix := by
  induction ms with
  | nil => rfl
  | cons m rest ih =>
    by_cases ha : isAbsSymlink fs m = true
    · simp [globValid, ha, List.filter_cons, ih]
    · have ha' : isAbsSymlink fs m = false := by simpa using ha
      by_cases h2 : strContainsSub (basename m) ".so.2" = true
      · simp [globValid, ha', h2, List.filter_cons, hasLoaderSuffix, ih]
      · by_cases h1 : strContainsSub (basename m) ".so.1" = true
        · simp [globValid, ha', h1, h2, List.filter_cons, hasLoaderSuffix, ih]
        · simp [globValid, ha', h1, h2, List.filter_cons, hasLoaderSuffix, ih]

theorem globFirstOk_eq (fs : FS) (ms : List String) :
    globFirstOk fs ms = (ms.filter (fun m => !(isAbsSymlink fs m))).head? := by
  induction ms with
  | nil => rfl
  | cons m rest ih =>
    by_cases ha : isAbsSymlink fs m = true
    · simp [globFirstOk, ha, List.filter_cons, ih]
    · have ha' : isAbsSymlink fs m = false := by simpa using ha
      simp [globFirstOk, ha', List.filter_cons]

theorem globSelect_eq_spec (fs : FS) (ms : List String) :
    globSelect fs ms = specGlobPick fs ms := by
  unfold globSelect specGlobPick
  rw [globValid_eq, globFirstOk_eq]

theorem globSelect_none_iff (fs : FS) (ms : List String) :
    globSelect fs ms = none ↔ ∀ m ∈ ms, isAbsSymlink fs m = true := by
  unfold globSelect
  rw [globValid_eq, globFirstOk_eq]
  constructor
  · intro h m hm
    cases hv : (ms.filter (fun m => !(isAbsSymlink fs m))).filter hasLoaderSuffix with
    | cons x xs => rw [hv] at h; cases h
    | nil =>
      rw [hv] at h
      have hnil : ms.filter (fun m => !(isAbsSymlink fs m)) = [] := by
        cases hf : ms.filter (fun m => !(isAbsSymlink fs m)) with
        | nil => rfl
        | cons y ys => rw [hf] at h; cases h
      have := List.filter_eq_nil_iff.mp hnil m hm
      simpa using this
  · intro h
    have hnil : ms.filter (fun m => !(isAbsSymlink fs m)) = [] := by
      apply List.filter_eq_nil_iff.mpr
      intro m hm
      simp [h m hm]
    rw [hnil]
    rfl

theorem globSelect_some_not_abs (fs : FS) (ms : List String) (p : String)
    (h : globSelect fs ms = some p) : isAbsSymlink fs p = false := by
  unfold globSelect at h
  have hmem : ∀ q ∈ ms.filter (fun m => !(isAbsSymlink fs m)), isAbsSymlink fs q = false := by
    intro q hq
    simpa using (List.mem_filter.mp hq).2
  cases hv : globValid fs ms with
  | cons x xs =>
    rw [hv] at h
    cases h
    have hx : p ∈ globValid fs ms := by rw [hv]; exact List.mem_cons_self p xs
    rw [globValid_eq] at hx
    exact hmem p (List.mem_of_mem_filter hx)
  | nil =>
    rw [hv] at h
    rw [globFirstOk_eq] at h
    exact hmem p (List.mem_of_mem_head? h)

theorem find_ld_none_parts (fs : FS) (root : String) :
    find_ld_linux fs root = none ↔
      findCanonical fs (ldCandidates root) = none
      ∧ globSelect fs (fs.glob root "lib/*/ld-linux*.so*") = none
      ∧ globSelect fs (fs.glob root "lib*/ld-linux*.so*") = none := by
  unfold find_ld_linux
  cases h1 : findCanonical fs (ldCandidates root) with
  | some c => simp
  | none =>
    cases h2 : globSelect fs (fs.glob root "lib/*/ld-linux*.so*") with
    | some m => simp
    | none => simp

/-! Helper lemmas about the launcher pipelines. -/

theorem run_trace_of_resolved (w : World) (name : String) (cmd extra : List String)
    (wd : Option String) (envv : List (String × String)) (d : Distro) (ld : String)
    (hd : get_distro name = some d)
    (hi : is_rootfs_installed w.cfg w.fs name = true)
    (hl : find_ld_linux w.fs (get_distro_rootfs w.cfg name) = some ld) :
    (run_with_glibc w name cmd extra wd envv).2
      = [⟨ld :: "--library-path" ::
            (dictGet? (applyOverrides (build_runtime_env w.fs w.cfg.env
                (get_distro_rootfs w.cfg name) extra) envv) "LD_LIBRARY_PATH").getD "" ::
            resolve_command w.fs (get_distro_rootfs w.cfg name) cmd,
          applyOverrides (build_runtime_env w.fs w.cfg.env
            (get_distro_rootfs w.cfg name) extra) envv,
          wd⟩] := by
  unfold run_with_glibc
  rw [hd]
  simp only [hi, if_true]
  rw [hl]
  cases hs : w.spawn (ld :: "--library-path" ::
      (dictGet? (applyOverrides (build_runtime_env w.fs w.cfg.env
          (get_distro_rootfs w.cfg name) extra) envv) "LD_LIBRARY_PATH").getD "" ::
      resolve_command w.fs (get_distro_rootfs w.cfg name) cmd)
      (applyOverrides (build_runtime_env w.fs w.cfg.env
        (get_distro_rootfs w.cfg name) extra) envv) wd with
  | exited code => simp [hs]
  | fileNotFound m => simp [hs]
  | permissionError m => simp [hs]

theorem exec_result_of_resolved (w : World) (name : String) (cmd extra : List String)
    (envv : List (String × String)) (d : Distro) (ld : String)
    (hd : get_distro name = some d)
    (hi : is_rootfs_installed w.cfg w.fs name = true)
    (hl : find_ld_linux w.fs (get_distro_rootfs w.cfg name) = some ld) :
    exec_with_glibc w name cmd extra envv
      = Except.ok ⟨ld,
          ld :: "--library-path" ::
            (dictGet? (applyOverrides (build_runtime_env w.fs w.cfg.env
                (get_distro_rootfs w.cfg name) extra) envv) "LD_LIBRARY_PATH").getD "" ::
            resolve_command w.fs (get_distro_rootfs w.cfg name) cmd,
          applyOverrides (build_runtime_env w.fs w.cfg.env
            (get_distro_rootfs w.cfg name) extra) envv⟩ := by
  unfold exec_with_glibc
  rw [hd]
  simp only [hi, if_true]
  rw [hl]

theorem final_env_ld_of_no_override (w : World) (name : String) (extra : List String)
    (envv : List (String × String)) (hno : ∀ kv ∈ envv, kv.1 ≠ "LD_LIBRARY_PATH") :
    (dictGet? (applyOverrides (build_runtime_env w.fs w.cfg.env
        (get_distro_rootfs w.cfg name) extra) envv) "LD_LIBRARY_PATH").getD ""
      = String.intercalate ":"
          (get_lib_paths w.fs (get_distro_rootfs w.cfg name) ++ extra) := by
  rw [applyOverrides_get_notkey _ _ _ hno, build_env_get_ld]
  rfl

/-! Claim theorems. -/

/-- C1: for every rootfs, a path returned by `find_ld_linux` is never a
symlink whose stored target is absolute; moreover, when an earlier-probed
canonical candidate exists but is an absolute-target symlink and a later
candidate is the first acceptable one (a regular file or relative-target
symlink), the resolver returns that later candidate. -/
theorem C1_find_ld_linux_never_absolute_symlink (fs : FS) (root : String) :
    (∀ p, find_ld_linux fs root = some p → isAbsSymlink fs p = false)
    ∧ (∀ i j, i < j → j < (ldCandidates root).length →
        fs.pathExists ((ldCandidates root).getD i "") = true →
        isAbsSymlink fs ((ldCandidates root).getD i "") = true →
        acceptableCandidate fs ((ldCandidates root).getD j "") = true →
        (∀ k, k < j → acceptableCandidate fs ((ldCandidates root).getD k "") = false) →
        find_ld_linux fs root = some ((ldCandidates root).getD j "")) := by
  constructor
  · intro p hp
    unfold find_ld_linux at hp
    cases hc : findCanonical fs (ldCandidates root) with
    | some c =>
      rw [hc] at hp
      cases hp
      exact (findCanonical_some fs _ _ hc).2
    | none =>
      rw [hc] at hp
      cases hg1 : globSelect fs (fs.glob root "lib/*/ld-linux*.so*") with
      | some m =>
        rw [hg1] at hp
        cases hp
        exact globSelect_some_not_abs fs _ _ hg1
      | none =>
        rw [hg1] at hp
        exact globSelect_some_not_abs fs _ _ hp
  · intro i j _hij hj _hex _habs hacc hbefore
    have hfind : (ldCandidates root).find? (acceptableCandidate fs)
        = some ((ldCandidates root).getD j "") :=
      find?_first_getD _ _ j hj hbefore hacc
    unfold find_ld_linux
    rw [findCanonical_eq_find?, hfind]

/-- C1 witness: under `fsA` the triplet candidate (probed first) exists but
is an absolute-target symlink, the `lib64` candidate is a regular file, and
the resolver returns the `lib64` path. -/
theorem C1_witness : find_ld_linux fsA "/r" = some "/r/lib64/ld-linux-x86-64.so.2" :=
  (C1_find_ld_linux_never_absolute_symlink fsA "/r").2 0 1 (by decide) (by decide)
    (by decide) (by decide) (by decide)
    (fun k hk => by
      have hk0 : k = 0 := by omega
      subst hk0
      decide)

/-- C2: `find_ld_linux` equals the spec's algorithm (ordered canonical
probing with first-acceptable selection, then the two-pattern glob fallback
preferring `.so.1`/`.so.2` names among non-rejected matches), and it returns
no loader exactly when every canonical candidate is absent or rejected and
every glob match is rejected as an absolute-target symlink. -/
theorem C2_find_ld_linux_algorithm (fs : FS) (root : String) :
    find_ld_linux fs root = find_ld_linux_spec fs root
    ∧ (find_ld_linux fs root = none ↔
        (∀ c ∈ ldCandidates root, acceptableCandidate fs c = false)
        ∧ (∀ m ∈ fs.glob root "lib/*/ld-linux*.so*" ++ fs.glob root "lib*/ld-linux*.so*",
            isAbsSymlink fs m = true)) := by
  constructor
  · unfold find_ld_linux find_ld_linux_spec
    rw [findCanonical_eq_find?, globSelect_eq_spec, globSelect_eq_spec]
  · rw [find_ld_none_parts, findCanonical_eq_find?, List.find?_eq_none,
      globSelect_none_iff, globSelect_none_iff]
    constructor
    · rintro ⟨h1, h2, h3⟩
      refine ⟨fun c hc => by simpa using h1 c hc, fun m hm => ?_⟩
      rcases List.mem_append.mp hm with hm1 | hm2
      · exact h2 m hm1
      · exact h3 m hm2
    · rintro ⟨h1, h2⟩
      exact ⟨fun c hc => by simp [h1 c hc],
        fun m hm => h2 m (List.mem_append.mpr (Or.inl hm)),
        fun m hm => h2 m (List.mem_append.mpr (Or.inr hm))⟩

/-- C2 witness: under `fsB` the loader exists only as a `.so.2` regular file
found by the `lib*/` glob pattern; the resolver agrees with the spec
algorithm and selects that file. -/
theorem C2_witness :
    find_ld_linux fsB "/r" = find_ld_linux_spec fsB "/r"
    ∧ find_ld_linux fsB "/r" = some "/r/lib64/ld-linux-x86-64.so.2" :=
  ⟨(C2_find_ld_linux_algorithm fsB "/r").1, by rfl⟩

/-- C5: `get_lib_paths` returns exactly the members of the fixed candidate
list that exist and are directories, and its output is a sublist of the
candidate list (declaration order preserved). -/
theorem C5_get_lib_paths_ordered_subset (fs : FS) (root : String) :
    (∀ p, p ∈ get_lib_paths fs root ↔
        (p ∈ libCandidates root ∧ fs.pathExists p = true ∧ fs.isDir p = true))
    ∧ (get_lib_paths fs root).Sublist (libCandidates root) := by
  constructor
  · intro p
    simp [get_lib_paths, List.mem_filter, Bool.and_eq_true, and_assoc]
  · exact List.filter_sublist _

/-- C5 witness: under `fsR` the `lib` candidate (an existing directory) is a
member of the collected path set, and the `lib64` candidate (absent) is
not. -/
theorem C5_witness :
    "/rt/rootfs/bookworm/lib" ∈ get_lib_paths fsR "/rt/rootfs/bookworm"
    ∧ "/rt/rootfs/bookworm/lib64" ∉ get_lib_paths fsR "/rt/rootfs/bookworm" :=
  ⟨((C5_get_lib_paths_ordered_subset fsR "/rt/rootfs/bookworm").1 _).mpr
      ⟨by decide, by rfl, by rfl⟩,
   fun hmem =>
    absurd (((C5_get_lib_paths_ordered_subset fsR "/rt/rootfs/bookworm").1 _).mp
      hmem).2.1 (by decide)⟩

/-- C6: `resolve_command` substitutes a rootfs-prefixed program word exactly
when the original word is absolute and the joined path exists, and leaves
the argv unchanged otherwise (absolute but missing, or relative). -/
theorem C6_resolve_command (fs : FS) (root : String) (exe : String) (args : List String) :
    (strStartsWith exe "/" = true →
      fs.pathExists (pjoin root (lstripSlash exe)) = true →
      resolve_command fs root (exe :: args) = pjoin root (lstripSlash exe) :: args)
    ∧ (strStartsWith exe "/" = true →
      fs.pathExists (pjoin root (lstripSlash exe)) = false →
      resolve_command fs root (exe :: args) = exe :: args)
    ∧ (strStartsWith exe "/" = false →
      resolve_command fs root (exe :: args) = exe :: args) := by
  refine ⟨fun h1 h2 => ?_, fun h1 h2 => ?_, fun h1 => ?_⟩
  · simp [resolve_command, h1, h2]
  · simp [resolve_command, h1, h2]
  · simp [resolve_command, h1]

/-- C6 witness: against `fsBin` (a rootfs holding `bin/ls`) the argv
`["/bin/ls", "-a"]` is rewritten to the rootfs path with the flag untouched,
and the relative argv `["ls"]` is returned unchanged. -/
theorem C6_witness :
    resolve_command fsBin "/r" ["/bin/ls", "-a"] = ["/r/bin/ls", "-a"]
    ∧ resolve_command fsBin "/r" ["ls"] = ["ls"] :=
  ⟨(C6_resolve_command fsBin "/r" "/bin/ls" ["-a"]).1 (by decide) (by rfl),
   (C6_resolve_command fsBin "/r" "ls" []).2.2 (by decide)⟩

/-- C3: both launchers fail fast, in check order — unknown distro, then
rootfs not installed (with the `rtbox pull` remediation hint in the
message), then loader not found — and on every resolution failure the spawn
trace of `run_with_glibc` is empty and `exec_with_glibc` returns an error
instead of an exec call, so the target program is never executed. -/
theorem C3_fail_fast_errors (w : World) (name : String) (cmd extra : List String)
    (wd : Option String) (envv : List (String × String)) :
    (get_distro name = none →
      run_with_glibc w name cmd extra wd envv
        = (Except.error (RtError.unknownDistro ("Unknown distro: " ++ name)), [])
      ∧ exec_with_glibc w name cmd extra envv
        = Except.error (RtError.unknownDistro ("Unknown distro: " ++ name)))
    ∧ (∀ d, get_distro name = some d →
        is_rootfs_installed w.cfg w.fs name = false →
        run_with_glibc w name cmd extra wd envv
          = (Except.error (RtError.rootfsNotInstalled
              ("Rootfs for " ++ name ++ " is not installed. Run: rtbox pull " ++ name)), [])
        ∧ exec_with_glibc w name cmd extra envv
          = Except.error (RtError.rootfsNotInstalled
              ("Rootfs for " ++ name ++ " is not installed. Run: rtbox pull " ++ name)))
    ∧ (∀ d, get_distro name = some d →
        is_rootfs_installed w.cfg w.fs name = true →
        find_ld_linux w.fs (get_distro_rootfs w.cfg name) = none →
        run_with_glibc w name cmd extra wd envv
          = (Except.error (RtError.loaderNotFound
              ("Could not find ld-linux in rootfs at " ++ get_distro_rootfs w.cfg name ++
               ". The rootfs may be incomplete or corrupted.")), [])
        ∧ exec_with_glibc w name cmd extra envv
          = Except.error (RtError.loaderNotFound
              ("Could not find ld-linux in rootfs at " ++ get_distro_rootfs w.cfg name))) := by
  refine ⟨fun hd => ?_, fun d hd hi => ?_, fun d hd hi hl => ?_⟩
  · constructor
    · unfold run_with_glibc
      rw [hd]
    · unfold exec_with_glibc
      rw [hd]
  · constructor
    · unfold run_with_glibc
      rw [hd]
      simp [hi]
    · unfold exec_with_glibc
      rw [hd]
      simp [hi]
  · constructor
    · unfold run_with_glibc
      rw [hd]
      simp only [hi, if_true]
      rw [hl]
    · unfold exec_with_glibc
      rw [hd]
      simp only [hi, if_true]
      rw [hl]

/-- C3 witness: requesting the unknown distro name `nosuch` in the empty
world yields the unknown-distro error from both launchers, with no spawn
call recorded and no exec call produced. -/
theorem C3_witness :
    run_with_glibc wU "nosuch" ["x"] [] none []
      = (Except.error (RtError.unknownDistro "Unknown distro: nosuch"), [])
    ∧ exec_with_glibc wU "nosuch" ["x"] [] []
      = Except.error (RtError.unknownDistro "Unknown distro: nosuch") :=
  (C3_fail_fast_errors wU "nosuch" ["x"] [] none []).1 (by rfl)

/-- C4: `build_runtime_env` is insensitive to every host variable outside the
allow-list (two host environments agreeing on the allow-list produce
identical results); each allow-listed host variable is copied with its host
value; any name outside the allow-list other than the two computed outputs
`LD_LIBRARY_PATH` and `RTBOX_ROOTFS` is absent; and in particular
`LD_PRELOAD` is absent while `LD_LIBRARY_PATH` and `RTBOX_ROOTFS` carry the
host-independent computed values. -/
theorem C4_env_allowlist :
    (∀ (fs : FS) (root : String) (extra : List String)
        (h1 h2 : String → Option String),
        (∀ v ∈ safe_vars, h1 v = h2 v) →
        build_runtime_env fs h1 root extra = build_runtime_env fs h2 root extra)
    ∧ (∀ (fs : FS) (root : String) (extra : List String)
        (h : String → Option String), ∀ v ∈ safe_vars, ∀ x, h v = some x →
        dictGet? (build_runtime_env fs h root extra) v = some x)
    ∧ (∀ (fs : FS) (root : String) (extra : List String)
        (h : String → Option String) (n : String),
        n ∉ safe_vars → n ≠ "LD_LIBRARY_PATH" → n ≠ "RTBOX_ROOTFS" →
        dictGet? (build_runtime_env fs h root extra) n = none)
    ∧ (∀ (fs : FS) (root : String) (extra : List String)
        (h : String → Option String),
        dictGet? (build_runtime_env fs h root extra) "LD_PRELOAD" = none
        ∧ dictGet? (build_runtime_env fs h root extra) "LD_LIBRARY_PATH"
            = some (String.intercalate ":" (get_lib_paths fs root ++ extra))
        ∧ dictGet? (build_runtime_env fs h root extra) "RTBOX_ROOTFS" = some root) := by
  refine ⟨fun fs root extra h1 h2 hagree => ?_,
    fun fs root extra h v hv x hx => build_env_get_safe fs h root extra v x hv hx,
    fun fs root extra h n h1 h2 h3 => build_env_get_none fs h root extra n h1 h2 h3,
    fun fs root extra h =>
      ⟨build_env_get_none fs h root extra "LD_PRELOAD" (by decide) (by decide) (by decide),
       build_env_get_ld fs h root extra,
       build_env_get_rtbox fs h root extra⟩⟩
  unfold build_runtime_env
  rw [copy_fold_congr h1 h2 safe_vars [] hagree]

/-- C4 witness: with the host environment `hostX` (which sets the tuning
variable `LD_PRELOAD` and the allow-listed `PATH`), the built environment
keeps `PATH` with its host value and drops `LD_PRELOAD`. -/
theorem C4_witness :
    dictGet? (build_runtime_env fsEmpty hostX "/r" []) "PATH" = some "/usr/bin"
    ∧ dictGet? (build_runtime_env fsEmpty hostX "/r" []) "LD_PRELOAD" = none :=
  ⟨C4_env_allowlist.2.1 fsEmpty "/r" [] hostX "PATH" (by decide) "/usr/bin" (by rfl),
   (C4_env_allowlist.2.2.2 fsEmpty "/r" [] hostX).1⟩

/-- C7 counterexample: for an identical request with an absolute program
path present under the rootfs (`["/bin/ls", "-a"]` against `fsR`), the
wrapper function's command line and the spawn path's command line agree on
the loader, the flag and the joined library path, but differ in the program
word — the spawn path rewrites `/bin/ls` to the rootfs path while the
wrapper script passes it through verbatim — so they are not "exactly the
same loader command line". -/
theorem C7_counterexample :
    wrapper_run_command cfgR fsR "bookworm" ["/bin/ls", "-a"]
      = Except.ok ["/rt/rootfs/bookworm/lib/x86_64-linux-gnu/ld-linux-x86-64.so.2",
          "--library-path", "/rt/rootfs/bookworm/lib", "/bin/ls", "-a"]
    ∧ (run_with_glibc wR "bookworm" ["/bin/ls", "-a"] [] none []).2.map (fun c => c.argv)
      = [["/rt/rootfs/bookworm/lib/x86_64-linux-gnu/ld-linux-x86-64.so.2",
          "--library-path", "/rt/rootfs/bookworm/lib", "/rt/rootfs/bookworm/bin/ls", "-a"]]
    ∧ (["/bin/ls", "-a"] : List String) ≠ ["/rt/rootfs/bookworm/bin/ls", "-a"] :=
  ⟨by rfl, by rfl, by decide⟩

/-- C7 amended: for an identical request (same distro, same argv, no extra
library paths, no overrides) the wrapper function and the spawn path build
the same loader path, the same `--library-path` flag and the same joined
library-path value; their program/argument vectors agree exactly when
`resolve_command` leaves the argv unchanged (relative program words, or
absolute words absent from the rootfs) — when `argv[0]` is absolute and
present under the rootfs, the spawn path rewrites it while the wrapper
passes it through. -/
theorem C7_wrapper_agreement_amended (w : World) (name : String) (args : List String)
    (d : Distro) (ld : String)
    (hd : get_distro name = some d)
    (hi : is_rootfs_installed w.cfg w.fs name = true)
    (hl : find_ld_linux w.fs (get_distro_rootfs w.cfg name) = some ld) :
    wrapper_run_command w.cfg w.fs name args
      = Except.ok (ld :: "--library-path" ::
          String.intercalate ":" (get_lib_paths w.fs (get_distro_rootfs w.cfg name)) :: args)
    ∧ (run_with_glibc w name args [] none []).2.map (fun c => c.argv)
      = [ld :: "--library-path" ::
          String.intercalate ":" (get_lib_paths w.fs (get_distro_rootfs w.cfg name)) ::
          resolve_command w.fs (get_distro_rootfs w.cfg name) args] := by
  constructor
  · unfold wrapper_run_command
    rw [hd]
    simp only [hi, if_true]
    rw [hl]
    rfl
  · rw [run_trace_of_resolved w name args [] none [] d ld hd hi hl]
    simp only [List.map_cons, List.map_nil]
    rw [final_env_ld_of_no_override w name [] [] (fun kv hkv => by simp at hkv)]
    simp

/-- C7 witness: for the relative argv `["ls"]` under `wR`, the wrapper
function and the spawn path construct the identical full command line. -/
theorem C7_witness :
    wrapper_run_command cfgR fsR "bookworm" ["ls"]
      = Except.ok ["/rt/rootfs/bookworm/lib/x86_64-linux-gnu/ld-linux-x86-64.so.2",
          "--library-path", "/rt/rootfs/bookworm/lib", "ls"]
    ∧ (run_with_glibc wR "bookworm" ["ls"] [] none []).2.map (fun c => c.argv)
      = [["/rt/rootfs/bookworm/lib/x86_64-linux-gnu/ld-linux-x86-64.so.2",
          "--library-path", "/rt/rootfs/bookworm/lib", "ls"]] := by
  have h := C7_wrapper_agreement_amended wR "bookworm" ["ls"]
    ⟨"bookworm", "12", "2.36", "bookworm"⟩
    "/rt/rootfs/bookworm/lib/x86_64-linux-gnu/ld-linux-x86-64.so.2"
    (by rfl) (by rfl) (by rfl)
  exact ⟨h.1, h.2⟩

/-- C8 counterexample: a caller-supplied environment override of
`LD_LIBRARY_PATH` flows into the `--library-path` argument — the spawned
command carries the override value `/evil`, not the colon join of the
collected rootfs paths and the extra paths (which is
`/rt/rootfs/bookworm/lib` here), so the command line is not the claimed
`[loader, --library-path, J, argv...]`. -/
theorem C8_counterexample :
    (run_with_glibc wR "bookworm" ["prog"] [] none
        [("LD_LIBRARY_PATH", "/evil")]).2.map (fun c => c.argv)
      = [["/rt/rootfs/bookworm/lib/x86_64-linux-gnu/ld-linux-x86-64.so.2",
          "--library-path", "/evil", "prog"]]
    ∧ String.intercalate ":"
        (get_lib_paths wR.fs (get_distro_rootfs wR.cfg "bookworm") ++ ([] : List String))
      = "/rt/rootfs/bookworm/lib"
    ∧ ("/evil" : String) ≠ "/rt/rootfs/bookworm/lib" :=
  ⟨by rfl, by rfl, by decide⟩

/-- C8 amended: on the fully resolved path both launchers hand the spawn or
exec primitive exactly `[loader, --library-path, J, resolved argv...]`,
where `J` is the final environment's `LD_LIBRARY_PATH` value after applying
caller overrides; when no override sets `LD_LIBRARY_PATH`, `J` equals the
colon join of the collected rootfs library paths followed by the caller's
extra paths, in that order. -/
theorem C8_command_line_amended (w : World) (name : String) (cmd extra : List String)
    (wd : Option String) (envv : List (String × String)) (d : Distro) (ld : String)
    (hd : get_distro name = some d)
    (hi : is_rootfs_installed w.cfg w.fs name = true)
    (hl : find_ld_linux w.fs (get_distro_rootfs w.cfg name) = some ld) :
    ((run_with_glibc w name cmd extra wd envv).2.map (fun c => c.argv)
      = [ld :: "--library-path" ::
          (dictGet? (applyOverrides (build_runtime_env w.fs w.cfg.env
              (get_distro_rootfs w.cfg name) extra) envv) "LD_LIBRARY_PATH").getD "" ::
          resolve_command w.fs (get_distro_rootfs w.cfg name) cmd])
    ∧ ((exec_with_glibc w name cmd extra envv).map (fun c => c.argv)
      = Except.ok (ld :: "--library-path" ::
          (dictGet? (applyOverrides (build_runtime_env w.fs w.cfg.env
              (get_distro_rootfs w.cfg name) extra) envv) "LD_LIBRARY_PATH").getD "" ::
          resolve_command w.fs (get_distro_rootfs w.cfg name) cmd))
    ∧ ((∀ kv ∈ envv, kv.1 ≠ "LD_LIBRARY_PATH") →
        (dictGet? (applyOverrides (build_runtime_env w.fs w.cfg.env
            (get_distro_rootfs w.cfg name) extra) envv) "LD_LIBRARY_PATH").getD ""
          = String.intercalate ":"
              (get_lib_paths w.fs (get_distro_rootfs w.cfg name) ++ extra)) := by
  refine ⟨?_, ?_, fun hno => final_env_ld_of_no_override w name extra envv hno⟩
  · rw [run_trace_of_resolved w name cmd extra wd envv d ld hd hi hl]
    rfl
  · rw [exec_result_of_resolved w name cmd extra envv d ld hd hi hl]
    rfl

/-- C8 witness: with no overrides and no extra paths under `wR`, the spawned
command line is exactly the loader, the flag, the collected join and the
argv. -/
theorem C8_witness :
    (run_with_glibc wR "bookworm" ["prog"] [] none []).2.map (fun c => c.argv)
      = [["/rt/rootfs/bookworm/lib/x86_64-linux-gnu/ld-linux-x86-64.so.2",
          "--library-path", "/rt/rootfs/bookworm/lib", "prog"]] := by
  have h := C8_command_line_amended wR "bookworm" ["prog"] [] none []
    ⟨"bookworm", "12", "2.36", "bookworm"⟩
    "/rt/rootfs/bookworm/lib/x86_64-linux-gnu/ld-linux-x86-64.so.2"
    (by rfl) (by rfl) (by rfl)
  exact h.1

/-- C9 counterexample: under `fsLibFile` the bookworm rootfs has a `lib`
entry that exists but is not a directory and no `lib64` entry at all, yet
`is_rootfs_installed` reports true — the source checks bare existence
(`Path.exists`), not directory kind, refuting the claim's "an entry of that
name that is a directory, not merely any filesystem entry". -/
theorem C9_counterexample :
    is_rootfs_installed cfgR fsLibFile "bookworm" = true
    ∧ fsLibFile.isDir (pjoin (get_distro_rootfs cfgR "bookworm") "lib") = false
    ∧ fsLibFile.pathExists (pjoin (get_distro_rootfs cfgR "bookworm") "lib64") = false
    ∧ fsLibFile.isDir (pjoin (get_distro_rootfs cfgR "bookworm") "lib64") = false :=
  ⟨by rfl, by rfl, by rfl, by rfl⟩

/-- C9 amended: `is_rootfs_installed` returns true iff the derived rootfs
path has a `lib` or a `lib64` entry of any filesystem kind (a pure
existence probe, with no directory-kind check); the check is a pure
filesystem read by construction. -/
theorem C9_is_rootfs_installed_amended (cfg : HostConfig) (fs : FS) (name : String) :
    is_rootfs_installed cfg fs name
      = (fs.pathExists (pjoin (get_distro_rootfs cfg name) "lib")
         || fs.pathExists (pjoin (get_distro_rootfs cfg name) "lib64")) := rfl

/-- C9 witness: the amended characterisation evaluated at the `fsLibFile`
fixture. -/
theorem C9_witness :
    is_rootfs_installed cfgR fsLibFile "bookworm"
      = (fsLibFile.pathExists (pjoin (get_distro_rootfs cfgR "bookworm") "lib")
         || fsLibFile.pathExists (pjoin (get_distro_rootfs cfgR "bookworm") "lib64")) :=
  C9_is_rootfs_installed_amended cfgR fsLibFile "bookworm"

/-- C10: for an installed rootfs with no resolvable loader,
`get_shell_wrapper_script` does not fail — it renders the script with the
loader resolver's empty result interpolated as the literal text `None`, so
the generated shell function would invoke the path `None`; the two execution
paths instead raise the loader-not-found error for the same rootfs state. -/
theorem C10_wrapper_none_interpolation (w : World) (name : String) (d : Distro)
    (cmd extra : List String) (wd : Option String) (envv : List (String × String))
    (args : List String)
    (hd : get_distro name = some d)
    (hi : is_rootfs_installed w.cfg w.fs name = true)
    (hl : find_ld_linux w.fs (get_distro_rootfs w.cfg name) = none) :
    get_shell_wrapper_script w.cfg w.fs name
      = Except.ok (renderScript name d.glibc_version (get_distro_rootfs w.cfg name)
          (String.intercalate ":" (get_lib_paths w.fs (get_distro_rootfs w.cfg name))) "None")
    ∧ wrapper_run_command w.cfg w.fs name args
      = Except.ok ("None" :: "--library-path" ::
          String.intercalate ":" (get_lib_paths w.fs (get_distro_rootfs w.cfg name)) :: args)
    ∧ (run_with_glibc w name cmd extra wd envv).1
      = Except.error (RtError.loaderNotFound
          ("Could not find ld-linux in rootfs at " ++ get_distro_rootfs w.cfg name ++
           ". The rootfs may be incomplete or corrupted."))
    ∧ exec_with_glibc w name cmd extra envv
      = Except.error (RtError.loaderNotFound
          ("Could not find ld-linux in rootfs at " ++ get_distro_rootfs w.cfg name)) := by
  refine ⟨?_, ?_, ?_, ?_⟩
  · unfold get_shell_wrapper_script
    rw [hd]
    simp only [hi, if_true]
    rw [hl]
    rfl
  · unfold wrapper_run_command
    rw [hd]
    simp only [hi, if_true]
    rw [hl]
    rfl
  · unfold run_with_glibc
    rw [hd]
    simp only [hi, if_true]
    rw [hl]
  · unfold exec_with_glibc
    rw [hd]
    simp only [hi, if_true]
    rw [hl]

/-- C10 witness: under `wNoLd` (installed rootfs, no loader anywhere) the
wrapper function invokes the literal path `None` while the spawn path
reports the loader-not-found error. -/
theorem C10_witness :
    wrapper_run_command cfgR fsNoLd "bookworm" ["x"]
      = Except.ok ["None", "--library-path", "/rt/rootfs/bookworm/lib", "x"]
    ∧ (run_with_glibc wNoLd "bookworm" ["x"] [] none []).1
      = Except.error (RtError.loaderNotFound
          "Could not find ld-linux in rootfs at /rt/rootfs/bookworm. The rootfs may be incomplete or corrupted.") := by
  have h := C10_wrapper_none_interpolation wNoLd "bookworm"
    ⟨"bookworm", "12", "2.36", "bookworm"⟩ ["x"] [] none [] ["x"]
    (by rfl) (by rfl) (by rfl)
  exact ⟨h.2.1, h.2.2.1⟩

end Rtbox
